import Mathlib

/-!
Shallow embedding of the kubetest2 "kind" bootstrap deployer
(`kubetest2-kind/deployer/deployer.go`) and the composite CAPI deployer
built on top of it.  External subprocesses (kind, kubectl, clusterctl),
the temporary-directory service and the file writer are modelled by an
explicit "world" of outcomes supplied to each operation; every operation
returns, besides its result, the trace of external invocations it
performed, in order.
-/

/-- Models `path.Join a b` / `filepath.Join a b` for the non-empty,
already-clean components this code produces (no cleaning needed). -/
def pathJoin (a b : String) : String := a ++ "/" ++ b

/-- One recorded interaction with the outside world.
`run` is a blocking invocation (`process.ExecJUnit`,
`process.ExecJUnitContext`, or `cmd.Output()`); `start`/`waitCmd` are the
`cmd.Start()` / `cmd.Wait()` halves used by the manifest-streaming step.
`withCtx` records whether the command was built with the `Up` call's
timeout context (`exec.CommandContext` / `ExecJUnitContext`) rather than
a plain context-free invocation. -/
inductive Event where
  | run (prog : String) (args : List String) (withCtx : Bool) : Event
  | start (prog : String) (args : List String) (withCtx : Bool) : Event
  | waitCmd (prog : String) (args : List String) (withCtx : Bool) : Event
  | tempDir : Event
  | writeFile (p : String) : Event
  deriving DecidableEq

/-- Is this event a subprocess invocation or wait (as opposed to the
temp-dir / file-write filesystem effects)? -/
def Event.isProc : Event → Bool
  | .run _ _ _ => true
  | .start _ _ _ => true
  | .waitCmd _ _ _ => true
  | .tempDir => false
  | .writeFile _ => false

/-- Did the invocation carry the `Up` deadline context? (Vacuously
`false` for the filesystem events.) -/
def Event.withCtxFlag : Event → Bool
  | .run _ _ c => c
  | .start _ _ c => c
  | .waitCmd _ _ c => c
  | .tempDir => false
  | .writeFile _ => false

/-- Error outcome of a `cmd.Output()` call: either an `*exec.ExitError`
carrying the captured standard-error bytes, or any other error. -/
inductive ExecErr where
  | exitError (stderr : String) : ExecErr
  | otherError : ExecErr
  deriving DecidableEq

namespace Kind

/-- The kind bootstrap deployer's state, as populated by `New` plus the
flag defaults registered in `bindFlags`.  `shouldBuild` models the
outcome of `d.commonOptions.ShouldBuild()`. -/
structure Deployer where
  nodeImage : String
  ClusterName : String
  logLevel : String
  logsDir : String
  buildType : String
  configPath : String
  kubeconfigPath : String
  kubeRoot : String
  verbosity : Int
  shouldBuild : Bool
  deriving DecidableEq

/-- `kindDefaultBuiltImageName` -/
def kindDefaultBuiltImageName : String := "kindest/node:latest"

/-- The deployer produced by `New` once pflag has applied the default
values registered in `bindFlags` (the `buildType` field is bound to no
flag, so it keeps the Go zero value). -/
def newDeployer (artifactsDir : String) (shouldBuild : Bool) : Deployer :=
  { nodeImage := ""
    ClusterName := "kind-kubetest2"
    logLevel := ""
    logsDir := pathJoin artifactsDir "logs"
    buildType := ""
    configPath := ""
    kubeconfigPath := ""
    kubeRoot := ""
    verbosity := 0
    shouldBuild := shouldBuild }

/-- Argument vector built by `Deployer.Up` for `kind`. -/
def Deployer.upArgs (d : Deployer) : List String :=
  ["create", "cluster", "--name", d.ClusterName]
    ++ (if d.logLevel ≠ "" then ["--loglevel", d.logLevel] else [])
    ++ (if d.nodeImage ≠ "" then ["--image", d.nodeImage]
        else if d.shouldBuild then ["--image", kindDefaultBuiltImageName]
        else [])
    ++ (if d.configPath ≠ "" then ["--config", d.configPath] else [])
    ++ (if d.kubeconfigPath ≠ "" then ["--kubeconfig", d.kubeconfigPath] else [])
    ++ (if d.verbosity > 0 then ["--verbosity", toString d.verbosity] else [])

/-- `Deployer.Up`: runs `kind <upArgs>` via `process.ExecJUnit` (no
context).  `ok` is the subprocess's outcome. -/
def Deployer.Up (d : Deployer) (ok : Bool) : Except Unit Unit × List Event :=
  ((if ok then .ok () else .error ()), [Event.run "kind" d.upArgs false])

/-- Argument vector built by `Deployer.Down` for `kind`. -/
def Deployer.downArgs (d : Deployer) : List String :=
  ["delete", "cluster", "--name", d.ClusterName]
    ++ (if d.logLevel ≠ "" then ["--loglevel", d.logLevel] else [])

/-- `Deployer.Down`: runs `kind <downArgs>` via `process.ExecJUnit`. -/
def Deployer.Down (d : Deployer) (ok : Bool) : Except Unit Unit × List Event :=
  ((if ok then .ok () else .error ()), [Event.run "kind" d.downArgs false])

/-- Argument vector built by `Deployer.Build` for `kind`. -/
def Deployer.buildArgs (d : Deployer) : List String :=
  ["build", "node-image"]
    ++ (if d.logLevel ≠ "" then ["--loglevel", d.logLevel] else [])
    ++ (if d.buildType ≠ "" then ["--type", d.buildType] else [])
    ++ (if d.kubeRoot ≠ "" then ["--kube-root", d.kubeRoot] else [])
    ++ (if d.nodeImage ≠ "" then ["--image", d.nodeImage]
        else if d.shouldBuild then ["--image", kindDefaultBuiltImageName]
        else [])

/-- `Deployer.Build`: runs `kind <buildArgs>` via `process.ExecJUnit`. -/
def Deployer.Build (d : Deployer) (ok : Bool) : Except Unit Unit × List Event :=
  ((if ok then .ok () else .error ()), [Event.run "kind" d.buildArgs false])

end Kind

/-- Substring test on byte strings: models `bytes.Contains`. -/
def listContains (needle : List Char) : List Char → Bool
  | [] => needle.isEmpty
  | c :: t => needle.isPrefixOf (c :: t) || listContains needle t

/-- `bytes.Contains(hay, needle)`. -/
def bytesContains (hay needle : String) : Bool :=
  listContains needle.toList hay.toList

namespace Capi

/-- The composite CAPI deployer's state (`deployer` struct), as
populated by `New` (which embeds a kind deployer sharing the same flag
set) plus the flag defaults of both `bindFlags` helpers. -/
structure deployer where
  kind : Kind.Deployer
  provider : String
  kubernetesVersion : String
  controlPlaneCount : String
  workerCount : String
  flavor : String
  useExistingCluster : Bool
  installCalico : Bool
  kubecfgPath : String
  upTimeout : String
  workloadClusterName : String
  deriving DecidableEq

/-- The deployer produced by `New` once pflag has applied the defaults
of both flag sets (`kubecfgPath` is bound to no flag, Go zero value). -/
def newDeployer (artifactsDir : String) (shouldBuild : Bool) : deployer :=
  { kind := Kind.newDeployer artifactsDir shouldBuild
    provider := ""
    kubernetesVersion := ""
    controlPlaneCount := "1"
    workerCount := "1"
    flavor := ""
    useExistingCluster := false
    installCalico := false
    kubecfgPath := ""
    upTimeout := "30m"
    workloadClusterName := "capi-workload-cluster" }

/-- Failure cause of a `Kubeconfig` call. -/
inductive KubeconfigError where
  | tempDirErr : KubeconfigError
  | execErr (e : ExecErr) : KubeconfigError
  | writeErr : KubeconfigError
  deriving DecidableEq

/-- Outcomes of the external effects a `Kubeconfig` call may perform:
`ioutil.TempDir` (its error or the created directory), the
`clusterctl get kubeconfig` subprocess (`cmd.Output()`: its error or the
captured standard output), and `ioutil.WriteFile`. -/
structure KubeconfigWorld where
  tmpdirRes : Except Unit String
  outputRes : Except ExecErr String
  writeOk : Bool

/-- Result of a stateful composite-deployer operation: the returned
value, the (possibly mutated) receiver, and the trace of external
interactions in order. -/
structure KubeconfigOutcome where
  res : Except KubeconfigError String
  state : deployer
  trace : List Event

/-- Argument vector for `clusterctl get kubeconfig`. -/
def getKubeconfigArgs (d : deployer) : List String :=
  ["get", "kubeconfig", d.workloadClusterName]

/-- `deployer.Kubeconfig`: returns the cached/explicit path when set;
otherwise creates a temp dir, caches the prospective path on the
receiver (the source assigns `d.kubecfgPath` before running the
subprocess), runs `clusterctl get kubeconfig <workload-cluster-name>`
with a plain `exec.Command` (no context), and writes the captured
output to the cached path. -/
def deployer.Kubeconfig (d : deployer) (w : KubeconfigWorld) : KubeconfigOutcome :=
  if d.kubecfgPath ≠ "" then
    { res := .ok d.kubecfgPath, state := d, trace := [] }
  else
    match w.tmpdirRes with
    | .error _ => { res := .error .tempDirErr, state := d, trace := [Event.tempDir] }
    | .ok tmpdir =>
      let kcPath := pathJoin tmpdir "kubeconfig.yaml"
      let d1 : deployer := { d with kubecfgPath := kcPath }
      match w.outputRes with
      | .error e =>
        { res := .error (.execErr e)
          state := d1
          trace := [Event.tempDir, Event.run "clusterctl" (getKubeconfigArgs d1) false] }
      | .ok _ =>
        if w.writeOk then
          { res := .ok kcPath
            state := d1
            trace := [Event.tempDir, Event.run "clusterctl" (getKubeconfigArgs d1) false,
                      Event.writeFile kcPath] }
        else
          { res := .error .writeErr
            state := d1
            trace := [Event.tempDir, Event.run "clusterctl" (getKubeconfigArgs d1) false,
                      Event.writeFile kcPath] }

/-- Outcomes of the two subprocesses `deployer.Down` may run: the
`kubectl delete` of the cluster object, and the delegated kind
`delete cluster`. -/
structure DownWorld where
  deleteOk : Bool
  kindDownOk : Bool
  deriving DecidableEq

/-- Failure cause of a `Down` call. -/
inductive DownError where
  | deleteErr : DownError
  | kindDownErr : DownError
  deriving DecidableEq

/-- Argument vector of the `kubectl delete` step of `deployer.Down`;
the source names the object after the embedded kind deployer's
`ClusterName`. -/
def deleteArgs (d : deployer) : List String :=
  ["delete", "--ignore-not-found", "--wait", "cluster", d.kind.ClusterName]

/-- `deployer.Down`: runs `kubectl delete --ignore-not-found --wait
cluster <d.kind.ClusterName>` via `process.ExecJUnit` (no context) and,
only if that succeeded, delegates to the kind deployer's `Down`. -/
def deployer.Down (d : deployer) (w : DownWorld) : Except DownError Unit × List Event :=
  if w.deleteOk then
    let (r, t) := d.kind.Down w.kindDownOk
    (match r with
     | .ok _ => .ok ()
     | .error _ => .error .kindDownErr,
     [Event.run "kubectl" (deleteArgs d) false] ++ t)
  else
    (.error .deleteErr, [Event.run "kubectl" (deleteArgs d) false])

/-- The error-text substring that `Up` tolerates from the provider
query: `"the server doesn't have a resource type"`. -/
def noResourceTypeMsg : String := "the server doesn't have a resource type"

/-- Failure cause of an `Up` call, one per `return err` site. -/
inductive UpError where
  | parseDurationErr : UpError
  | kindUpErr : UpError
  | queryExitErr (stdout stderr : String) : UpError
  | queryOtherErr : UpError
  | initErr : UpError
  | waitCapiErr : UpError
  | pipeErr : UpError
  | clusterctlStartErr : UpError
  | kubectlStartErr : UpError
  | clusterctlWaitErr : UpError
  | kubectlWaitErr : UpError
  | waitReadyErr : UpError
  | kubeconfigErr (e : KubeconfigError) : UpError
  | calicoApplyErr : UpError
  | calicoWaitErr : UpError
  deriving DecidableEq

/-- Outcomes of the external interactions an `Up` call may perform, one
field per subprocess / library call in source order.
`parseDurationOk` models `time.ParseDuration(d.upTimeout)` (standard
library); `queryOut`/`queryErr` are the captured standard output and
the error of the provider query's `cmd.Output()`; `pipeOk` models
`clusterctl.StdoutPipe()`; the `...StartOk`/`...WaitOk` fields are the
`Start`/`Wait` outcomes of the manifest-render and apply commands. -/
structure UpWorld where
  parseDurationOk : Bool
  kindUpOk : Bool
  queryOut : String
  queryErr : Option ExecErr
  initOk : Bool
  waitCapiOk : Bool
  pipeOk : Bool
  clusterctlStartOk : Bool
  kubectlStartOk : Bool
  clusterctlWaitOk : Bool
  kubectlWaitOk : Bool
  waitReadyOk : Bool
  kubeconfigWorld : KubeconfigWorld
  calicoApplyOk : Bool
  calicoWaitOk : Bool

/-- Result of `Up` or one of its phases. -/
structure UpOutcome where
  res : Except UpError Unit
  state : deployer
  trace : List Event

/-- Argument vector of the infrastructure-provider query. -/
def queryArgs (d : deployer) : List String :=
  ["get", "providers", "--all-namespaces",
   "--field-selector=metadata.name=infrastructure-" ++ d.provider,
   "--ignore-not-found"]

/-- Argument vector of `clusterctl init`. -/
def initArgs (d : deployer) : List String :=
  ["init", "--infrastructure", d.provider]

/-- Argument vector of the cluster-wide deployment-availability wait. -/
def waitCapiArgs : List String :=
  ["wait", "--for=condition=Available", "--all", "--all-namespaces",
   "deployment", "--timeout=-1m"]

/-- Argument vector of the manifest-render command
`clusterctl config cluster ...`. -/
def configArgs (d : deployer) : List String :=
  ["config",
   "cluster", d.workloadClusterName,
   "--infrastructure", d.provider,
   "--kubernetes-version", d.kubernetesVersion,
   "--worker-machine-count", d.workerCount,
   "--control-plane-machine-count", d.controlPlaneCount,
   "--flavor", d.flavor]

/-- Argument vector of the apply consumer `kubectl apply -f -`. -/
def applyArgs : List String := ["apply", "-f", "-"]

/-- Argument vector of the workload-cluster readiness wait. -/
def waitReadyArgs (d : deployer) : List String :=
  ["wait", "--for=condition=Ready", "cluster/" ++ d.workloadClusterName,
   "--timeout=-1m"]

/-- Argument vector of the Calico CNI apply. -/
def calicoApplyArgs (kubeconfig : String) : List String :=
  ["--kubeconfig", kubeconfig, "apply", "-f",
   "https://docs.projectcalico.org/v3.12/manifests/calico.yaml"]

/-- Argument vector of the Calico availability wait. -/
def calicoWaitArgs (kubeconfig : String) : List String :=
  ["--kubeconfig", kubeconfig, "wait", "--for=condition=Available",
   "--all", "--all-namespaces", "deployment", "--timeout=-1m"]

/-- The tail of `Up` from the "waiting for CAPI to start" wait onward:
deployment-availability wait, the streaming pipe between
`clusterctl config cluster` (producer) and `kubectl apply -f -`
(consumer) — producer and consumer are both started, then the producer
is waited on, then the consumer — the workload-cluster readiness wait,
and the optional Calico install (which resolves the kubeconfig via
`deployer.Kubeconfig`).  All invocations here are built with the `Up`
timeout context; `start` events record `Start()` attempts regardless of
their outcome. -/
def upAfterInstall (d : deployer) (w : UpWorld) : UpOutcome :=
  let t0 := [Event.run "kubectl" waitCapiArgs true]
  if !w.waitCapiOk then { res := .error .waitCapiErr, state := d, trace := t0 }
  else if !w.pipeOk then
    -- clusterctl.StdoutPipe() failed before either process was started
    { res := .error .pipeErr, state := d, trace := t0 }
  else
    let t1 := t0 ++ [Event.start "clusterctl" (configArgs d) true]
    if !w.clusterctlStartOk then { res := .error .clusterctlStartErr, state := d, trace := t1 }
    else
      let t2 := t1 ++ [Event.start "kubectl" applyArgs true]
      if !w.kubectlStartOk then { res := .error .kubectlStartErr, state := d, trace := t2 }
      else
        let t3 := t2 ++ [Event.waitCmd "clusterctl" (configArgs d) true]
        if !w.clusterctlWaitOk then { res := .error .clusterctlWaitErr, state := d, trace := t3 }
        else
          let t4 := t3 ++ [Event.waitCmd "kubectl" applyArgs true]
          if !w.kubectlWaitOk then { res := .error .kubectlWaitErr, state := d, trace := t4 }
          else
            let t5 := t4 ++ [Event.run "kubectl" (waitReadyArgs d) true]
            if !w.waitReadyOk then { res := .error .waitReadyErr, state := d, trace := t5 }
            else if d.installCalico then
              let k := d.Kubeconfig w.kubeconfigWorld
              match k.res with
              | .error e =>
                { res := .error (.kubeconfigErr e), state := k.state, trace := t5 ++ k.trace }
              | .ok kubeconfig =>
                let t6 := t5 ++ k.trace ++ [Event.run "kubectl" (calicoApplyArgs kubeconfig) true]
                if !w.calicoApplyOk then
                  { res := .error .calicoApplyErr, state := k.state, trace := t6 }
                else
                  let t7 := t6 ++ [Event.run "kubectl" (calicoWaitArgs kubeconfig) true]
                  if !w.calicoWaitOk then
                    { res := .error .calicoWaitErr, state := k.state, trace := t7 }
                  else { res := .ok (), state := k.state, trace := t7 }
            else { res := .ok (), state := d, trace := t5 }

/-- The part of `Up` from the `len(lines) == 0` check onward: when the
provider query produced no output, run `clusterctl init
--infrastructure <provider>` (context-carrying), then continue with
`upAfterInstall`. -/
def upAfterQuery (d : deployer) (w : UpWorld) : UpOutcome :=
  if w.queryOut = "" then -- len(lines) == 0: no results
    let ti := [Event.run "clusterctl" (initArgs d) true]
    if !w.initOk then { res := .error .initErr, state := d, trace := ti }
    else
      let k := upAfterInstall d w
      { res := k.res, state := k.state, trace := ti ++ k.trace }
  else upAfterInstall d w

/-- `deployer.Up`: parse the up-timeout, derive the timeout context,
optionally create the bootstrap cluster via the kind deployer (its
subprocess does not carry the context), run the provider query with the
context, tolerate an `ExitError` whose captured stderr contains
`noResourceTypeMsg` (any other query error aborts), then continue with
`upAfterQuery`. -/
def deployer.Up (d : deployer) (w : UpWorld) : UpOutcome :=
  if !w.parseDurationOk then { res := .error .parseDurationErr, state := d, trace := [] }
  else
    let kindTrace := if d.useExistingCluster then [] else [Event.run "kind" d.kind.upArgs false]
    if !d.useExistingCluster && !w.kindUpOk then
      { res := .error .kindUpErr, state := d, trace := kindTrace }
    else
      let qTrace := kindTrace ++ [Event.run "kubectl" (queryArgs d) true]
      match w.queryErr with
      | some (.exitError stderr) =>
        if !(bytesContains stderr noResourceTypeMsg) then
          { res := .error (.queryExitErr w.queryOut stderr), state := d, trace := qTrace }
        else
          let k := upAfterQuery d w
          { res := k.res, state := k.state, trace := qTrace ++ k.trace }
      | some .otherError =>
        { res := .error .queryOtherErr, state := d, trace := qTrace }
      | none =>
        let k := upAfterQuery d w
        { res := k.res, state := k.state, trace := qTrace ++ k.trace }

/-- A value handed to a registered flag by the pflag parser: the shape
matches the flag's registered type (`StringVar` / `BoolVar` / `IntVar`). -/
inductive FlagVal where
  | str (s : String) : FlagVal
  | boolV (b : Bool) : FlagVal
  | intV (n : Int) : FlagVal
  deriving DecidableEq

/-- Assignment of a string-typed flag `n` to value `v`, following the
`StringVar` bindings registered by the kind deployer's `bindFlags` and
the composite deployer's `bindFlags` (both register on the same flag
set).  Note that in the source both `image-name` and `build-type` are
bound to `&d.nodeImage`, while the `buildType` field is bound to no
flag. -/
def setStrFlag (d : deployer) (n v : String) : deployer :=
  if n = "cluster-name" then { d with kind := { d.kind with ClusterName := v } }
  else if n = "loglevel" then { d with kind := { d.kind with logLevel := v } }
  else if n = "image-name" then { d with kind := { d.kind with nodeImage := v } }
  else if n = "build-type" then { d with kind := { d.kind with nodeImage := v } }
  else if n = "config" then { d with kind := { d.kind with configPath := v } }
  else if n = "kubeconfig" then { d with kind := { d.kind with kubeconfigPath := v } }
  else if n = "kube-root" then { d with kind := { d.kind with kubeRoot := v } }
  else if n = "provider" then { d with provider := v }
  else if n = "kubernetes-version" then { d with kubernetesVersion := v }
  else if n = "control-plane-machine-count" then { d with controlPlaneCount := v }
  else if n = "worker-machine-count" then { d with workerCount := v }
  else if n = "flavor" then { d with flavor := v }
  else if n = "up-timeout" then { d with upTimeout := v }
  else if n = "workload-cluster-name" then { d with workloadClusterName := v }
  else d

/-- Assignment of a bool-typed flag, following the `BoolVar` bindings. -/
def setBoolFlag (d : deployer) (n : String) (v : Bool) : deployer :=
  if n = "use-existing-cluster" then { d with useExistingCluster := v }
  else if n = "install-calico" then { d with installCalico := v }
  else d

/-- Assignment of an int-typed flag, following the `IntVar` binding. -/
def setIntFlag (d : deployer) (n : String) (v : Int) : deployer :=
  if n = "verbosity" then { d with kind := { d.kind with verbosity := v } }
  else d

/-- The effect of the parser assigning one flag value.  An assignment
whose name/type matches no registered binding leaves the state
unchanged (the parser would have rejected it before any binding ran). -/
def setFlag (d : deployer) (f : String × FlagVal) : deployer :=
  match f.2 with
  | .str v => setStrFlag d f.1 v
  | .boolV v => setBoolFlag d f.1 v
  | .intV v => setIntFlag d f.1 v

/-- The composite deployer produced by `New` followed by parsing the
given flag assignments in command-line order. -/
def parseFlags (artifactsDir : String) (shouldBuild : Bool)
    (fs : List (String × FlagVal)) : deployer :=
  fs.foldl setFlag (newDeployer artifactsDir shouldBuild)

end Capi

/-- The `build node-image` argument vector with the `--type` segment
removed — the comparator used to state that flag parsing can never make
`Build` emit a `--type` argument. -/
def Kind.Deployer.buildArgsWithoutType (d : Kind.Deployer) : List String :=
  ["build", "node-image"]
    ++ (if d.logLevel ≠ "" then ["--loglevel", d.logLevel] else [])
    ++ (if d.kubeRoot ≠ "" then ["--kube-root", d.kubeRoot] else [])
    ++ (if d.nodeImage ≠ "" then ["--image", d.nodeImage]
        else if d.shouldBuild then ["--image", Kind.kindDefaultBuiltImageName]
        else [])

/-- Does this event run the `kind` binary (a delegation to the
bootstrap deployer)? -/
def isKindRun : Event → Bool
  | .run "kind" _ _ => true
  | _ => false

/-- Does this event run `clusterctl get kubeconfig ...`? -/
def isGetKubeconfigRun : Event → Bool
  | .run "clusterctl" ("get" :: "kubeconfig" :: _) _ => true
  | _ => false

/-- Does this event run `clusterctl init ...`? -/
def isInitRun : Event → Bool
  | .run "clusterctl" ("init" :: _) _ => true
  | _ => false

/-- Is this event a `Start()` or `Wait()` half of a piped command?
Within the embedded program these arise only in the manifest-streaming
step of `Up`. -/
def isStartOrWait : Event → Bool
  | .start _ _ _ => true
  | .waitCmd _ _ _ => true
  | _ => false

/-- The bootstrap-create invocation of a composite `Up` call. -/
def Capi.kindCreateEvent (d : Capi.deployer) : Event :=
  Event.run "kind" d.kind.upArgs false

/-- The `clusterctl get kubeconfig` invocation of a `Kubeconfig` call. -/
def Capi.getKubeconfigEvent (d : Capi.deployer) : Event :=
  Event.run "clusterctl" (Capi.getKubeconfigArgs d) false

/-- The `clusterctl init` invocation of a composite `Up` call. -/
def Capi.initEvent (d : Capi.deployer) : Event :=
  Event.run "clusterctl" (Capi.initArgs d) true


/-- Is a provider-query error tolerated by `Up`: no error, or an
`ExitError` whose captured stderr contains the known substring? -/
def queryTolerated (w : Capi.UpWorld) : Bool :=
  match w.queryErr with
  | none => true
  | some (.exitError s) => bytesContains s Capi.noResourceTypeMsg
  | some .otherError => false

/-- A subprocess invocation or wait that does not carry the `Up`
deadline context and is neither the delegated bootstrap-create
invocation nor the `Kubeconfig` fetch. -/
def ctxFreeUnexpected (d : Capi.deployer) (e : Event) : Bool :=
  e.isProc && !e.withCtxFlag && !(e == Capi.kindCreateEvent d) &&
    !(e == Capi.getKubeconfigEvent d)

/-- A world in which every external interaction of `Up` succeeds and
the provider query returns no output. -/
def allOkWorld : Capi.UpWorld :=
  { parseDurationOk := true, kindUpOk := true, queryOut := "", queryErr := none,
    initOk := true, waitCapiOk := true, pipeOk := true, clusterctlStartOk := true,
    kubectlStartOk := true, clusterctlWaitOk := true, kubectlWaitOk := true,
    waitReadyOk := true,
    kubeconfigWorld := ⟨.ok "/tmp/kubetest2-capi1", .ok "apiVersion: v1", true⟩,
    calicoApplyOk := true, calicoWaitOk := true }

/-! ## Helper lemmas -/

theorem pathJoin_ne_empty (a b : String) : pathJoin a b ≠ "" := by
  intro h
  have hl := congrArg String.length h
  have h1 : ("/" : String).length = 1 := rfl
  simp [pathJoin, String.length_append, h1] at hl

/-! ## Claims -/

/-- C1, counterexample: at the default configuration, when the
`kubectl delete` of the cluster object fails, `Down` returns that error
and the bootstrap deployer's `Down` (the `kind` invocation) never
occurs — refuting "the bootstrap-delete call occurs even when the
preceding workload-cluster delete subprocess exits with an error". -/
theorem c1_down_counterexample :
    (Capi.deployer.Down (Capi.newDeployer "_artifacts" false) ⟨false, true⟩).1 =
      .error .deleteErr ∧
    ((Capi.deployer.Down (Capi.newDeployer "_artifacts" false) ⟨false, true⟩).2.countP
      isKindRun) = 0 :=
  ⟨rfl, rfl⟩

/-- C1, amended: `Down` invokes the bootstrap deployer's `Down` exactly
when the workload-cluster delete subprocess succeeds; when that delete
fails, `Down` returns its error without invoking bootstrap-delete. -/
theorem c1_down_amended (d : Capi.deployer) (w : Capi.DownWorld) :
    (Capi.deployer.Down d w).2 =
      [Event.run "kubectl" (Capi.deleteArgs d) false] ++
        (if w.deleteOk then [Event.run "kind" d.kind.downArgs false] else []) ∧
    (Capi.deployer.Down d w).1 =
      (if w.deleteOk then
        (if w.kindDownOk then .ok () else .error .kindDownErr)
       else .error .deleteErr) := by
  cases hw : w.deleteOk <;>
    cases hk : w.kindDownOk <;>
      simp [Capi.deployer.Down, Kind.Deployer.Down, hw, hk]

/-- C6, counterexample: starting from the default configuration (no
explicit override), a first `Kubeconfig` resolution whose
`clusterctl get kubeconfig` subprocess fails returns an error, yet the
cached-path state HAS changed (the source assigns `d.kubecfgPath`
before running the subprocess), and a subsequent call returns that
stale path with no re-fetch (empty trace). -/
theorem c6_kubeconfig_counterexample :
    (Capi.newDeployer "_artifacts" false).kubecfgPath = "" ∧
    ((Capi.newDeployer "_artifacts" false).Kubeconfig
        ⟨.ok "/tmp/kubetest2-capi1", .error (.exitError "cluster not found"), true⟩).res =
      .error (.execErr (.exitError "cluster not found")) ∧
    ((Capi.newDeployer "_artifacts" false).Kubeconfig
        ⟨.ok "/tmp/kubetest2-capi1", .error (.exitError "cluster not found"), true⟩).state.kubecfgPath =
      "/tmp/kubetest2-capi1/kubeconfig.yaml" ∧
    (((Capi.newDeployer "_artifacts" false).Kubeconfig
        ⟨.ok "/tmp/kubetest2-capi1", .error (.exitError "cluster not found"), true⟩).state.Kubeconfig
        ⟨.ok "/tmp/kubetest2-capi2", .error (.exitError "cluster not found"), true⟩).res =
      .ok "/tmp/kubetest2-capi1/kubeconfig.yaml" ∧
    (((Capi.newDeployer "_artifacts" false).Kubeconfig
        ⟨.ok "/tmp/kubetest2-capi1", .error (.exitError "cluster not found"), true⟩).state.Kubeconfig
        ⟨.ok "/tmp/kubetest2-capi2", .error (.exitError "cluster not found"), true⟩).trace = [] :=
  ⟨rfl, rfl, rfl, rfl, rfl⟩

/-- C6, amended: with no explicit override, a temp-dir failure returns
an error with the cached-path state unchanged; but when the
`get kubeconfig` subprocess or the file write fails, the call returns
an error having already cached the prospective path, so a subsequent
`Kubeconfig` call returns that path without re-attempting the fetch. -/
theorem c6_kubeconfig_amended (d : Capi.deployer) (w w2 : Capi.KubeconfigWorld)
    (h : d.kubecfgPath = "") :
    (w.tmpdirRes = .error () →
      d.Kubeconfig w = ⟨.error .tempDirErr, d, [Event.tempDir]⟩) ∧
    (∀ t, w.tmpdirRes = .ok t →
      ((∃ e, w.outputRes = .error e) ∨ w.writeOk = false) →
      (∃ er, (d.Kubeconfig w).res = .error er) ∧
      (d.Kubeconfig w).state.kubecfgPath = pathJoin t "kubeconfig.yaml" ∧
      (d.Kubeconfig w).state.Kubeconfig w2 =
        ⟨.ok (pathJoin t "kubeconfig.yaml"), (d.Kubeconfig w).state, []⟩) := by
  constructor
  · intro ht
    simp [Capi.deployer.Kubeconfig, h, ht]
  · intro t ht hfail
    rcases hout : w.outputRes with e | out
    · refine ⟨⟨.execErr e, ?_⟩, ?_, ?_⟩ <;>
        simp [Capi.deployer.Kubeconfig, h, ht, hout, pathJoin_ne_empty]
    · rcases hfail with ⟨e, he⟩ | hw
      · rw [hout] at he; exact absurd he (by simp)
      · refine ⟨⟨.writeErr, ?_⟩, ?_, ?_⟩ <;>
          simp [Capi.deployer.Kubeconfig, h, ht, hout, hw, pathJoin_ne_empty]

/-- C6 witness for `c6_kubeconfig_amended` at a concrete input. -/
theorem c6_kubeconfig_amended_witness :
    (Capi.newDeployer "_artifacts" false).kubecfgPath = "" ∧
    (((Capi.newDeployer "_artifacts" false).Kubeconfig
        ⟨.ok "/tmp/kubetest2-capi1", .ok "apiVersion: v1", false⟩).state.kubecfgPath =
      pathJoin "/tmp/kubetest2-capi1" "kubeconfig.yaml") :=
  ⟨rfl,
   ((c6_kubeconfig_amended (Capi.newDeployer "_artifacts" false)
      ⟨.ok "/tmp/kubetest2-capi1", .ok "apiVersion: v1", false⟩
      ⟨.ok "/tmp/kubetest2-capi2", .ok "apiVersion: v1", true⟩ rfl).2
      "/tmp/kubetest2-capi1" rfl (.inr rfl)).2.1⟩

/-- C7: with no explicit kubecfg-path configured, two consecutive
successful `Kubeconfig` calls run `clusterctl get kubeconfig` exactly
once: the second call returns the same cached path with no external
interaction at all. -/
theorem c7_kubeconfig_memoized (d : Capi.deployer) (w1 w2 : Capi.KubeconfigWorld)
    (h : d.kubecfgPath = "") (t out : String)
    (h1 : w1.tmpdirRes = .ok t) (h2 : w1.outputRes = .ok out) (h3 : w1.writeOk = true) :
    (d.Kubeconfig w1).res = .ok (pathJoin t "kubeconfig.yaml") ∧
    (d.Kubeconfig w1).state.Kubeconfig w2 =
      ⟨.ok (pathJoin t "kubeconfig.yaml"), (d.Kubeconfig w1).state, []⟩ ∧
    ((d.Kubeconfig w1).trace ++ ((d.Kubeconfig w1).state.Kubeconfig w2).trace).countP
      isGetKubeconfigRun = 1 := by
  refine ⟨?_, ?_, ?_⟩ <;>
    simp [Capi.deployer.Kubeconfig, h, h1, h2, h3, pathJoin_ne_empty,
      Capi.getKubeconfigArgs, isGetKubeconfigRun]

/-- C7 witness for `c7_kubeconfig_memoized` at a concrete input. -/
theorem c7_kubeconfig_memoized_witness :
    ((Capi.newDeployer "_artifacts" false).Kubeconfig
        ⟨.ok "/tmp/kubetest2-capi1", .ok "apiVersion: v1", true⟩).res =
      .ok (pathJoin "/tmp/kubetest2-capi1" "kubeconfig.yaml") ∧
    (((Capi.newDeployer "_artifacts" false).Kubeconfig
        ⟨.ok "/tmp/kubetest2-capi1", .ok "apiVersion: v1", true⟩).trace ++
      (((Capi.newDeployer "_artifacts" false).Kubeconfig
        ⟨.ok "/tmp/kubetest2-capi1", .ok "apiVersion: v1", true⟩).state.Kubeconfig
        ⟨.ok "/tmp/kubetest2-capi2", .ok "apiVersion: v1", true⟩).trace).countP
      isGetKubeconfigRun = 1 := by
  have h := c7_kubeconfig_memoized (Capi.newDeployer "_artifacts" false)
    ⟨.ok "/tmp/kubetest2-capi1", .ok "apiVersion: v1", true⟩
    ⟨.ok "/tmp/kubetest2-capi2", .ok "apiVersion: v1", true⟩
    rfl "/tmp/kubetest2-capi1" "apiVersion: v1" rfl rfl rfl
  exact ⟨h.1, h.2.2⟩

/-- C8: the cluster object deleted by `Down` is named after the
embedded kind deployer's (bootstrap) `ClusterName`, not after the
configured workload-cluster-name: at the default configuration `Down`
runs `kubectl delete --ignore-not-found --wait cluster kind-kubetest2`,
while the workload cluster that `Up` renders and applies is named
`capi-workload-cluster` — a different name. -/
theorem c8_down_deletes_bootstrap_name :
    Capi.deleteArgs (Capi.newDeployer "_artifacts" false) =
      ["delete", "--ignore-not-found", "--wait", "cluster", "kind-kubetest2"] ∧
    (Capi.configArgs (Capi.newDeployer "_artifacts" false))[2]? =
      some "capi-workload-cluster" ∧
    (Capi.deployer.Down (Capi.newDeployer "_artifacts" false) ⟨true, true⟩).2 =
      [Event.run "kubectl"
        ["delete", "--ignore-not-found", "--wait", "cluster", "kind-kubetest2"] false,
       Event.run "kind" ["delete", "cluster", "--name", "kind-kubetest2"] false] ∧
    ("kind-kubetest2" : String) ≠ "capi-workload-cluster" := by
  refine ⟨rfl, rfl, rfl, by decide⟩


theorem setStrFlag_kind_buildType (d : Capi.deployer) (n v : String) :
    (Capi.setStrFlag d n v).kind.buildType = d.kind.buildType := by
  delta Capi.setStrFlag
  by_cases h0 : n = "cluster-name"
  · rw [if_pos h0]
  rw [if_neg h0]
  by_cases h1 : n = "loglevel"
  · rw [if_pos h1]
  rw [if_neg h1]
  by_cases h2 : n = "image-name"
  · rw [if_pos h2]
  rw [if_neg h2]
  by_cases h3 : n = "build-type"
  · rw [if_pos h3]
  rw [if_neg h3]
  by_cases h4 : n = "config"
  · rw [if_pos h4]
  rw [if_neg h4]
  by_cases h5 : n = "kubeconfig"
  · rw [if_pos h5]
  rw [if_neg h5]
  by_cases h6 : n = "kube-root"
  · rw [if_pos h6]
  rw [if_neg h6]
  by_cases h7 : n = "provider"
  · rw [if_pos h7]
  rw [if_neg h7]
  by_cases h8 : n = "kubernetes-version"
  · rw [if_pos h8]
  rw [if_neg h8]
  by_cases h9 : n = "control-plane-machine-count"
  · rw [if_pos h9]
  rw [if_neg h9]
  by_cases h10 : n = "worker-machine-count"
  · rw [if_pos h10]
  rw [if_neg h10]
  by_cases h11 : n = "flavor"
  · rw [if_pos h11]
  rw [if_neg h11]
  by_cases h12 : n = "up-timeout"
  · rw [if_pos h12]
  rw [if_neg h12]
  by_cases h13 : n = "workload-cluster-name"
  · rw [if_pos h13]
  rw [if_neg h13]

theorem setBoolFlag_kind (d : Capi.deployer) (n : String) (v : Bool) :
    (Capi.setBoolFlag d n v).kind = d.kind := by
  delta Capi.setBoolFlag
  by_cases h0 : n = "use-existing-cluster"
  · rw [if_pos h0]
  rw [if_neg h0]
  by_cases h1 : n = "install-calico"
  · rw [if_pos h1]
  rw [if_neg h1]

theorem setIntFlag_kind_buildType (d : Capi.deployer) (n : String) (v : Int) :
    (Capi.setIntFlag d n v).kind.buildType = d.kind.buildType := by
  delta Capi.setIntFlag
  by_cases h0 : n = "verbosity"
  · rw [if_pos h0]
  rw [if_neg h0]

theorem setFlag_kind_buildType (d : Capi.deployer) (f : String × Capi.FlagVal) :
    (Capi.setFlag d f).kind.buildType = d.kind.buildType := by
  rcases f with ⟨n, v⟩
  cases v with
  | str s => exact setStrFlag_kind_buildType d n s
  | boolV b => exact congrArg Kind.Deployer.buildType (setBoolFlag_kind d n b)
  | intV i => exact setIntFlag_kind_buildType d n i

theorem parseFlags_buildType (a : String) (sb : Bool) (fs : List (String × Capi.FlagVal)) :
    (Capi.parseFlags a sb fs).kind.buildType = "" := by
  suffices h : ∀ d, (fs.foldl Capi.setFlag d).kind.buildType = d.kind.buildType by
    simpa [Capi.parseFlags] using h (Capi.newDeployer a sb)
  induction fs with
  | nil => intro d; rfl
  | cons f fs ih => intro d; rw [List.foldl_cons, ih, setFlag_kind_buildType]

theorem parseFlags_one_buildType_flag (a : String) (sb : Bool) (X : String) :
    Capi.parseFlags a sb [("build-type", Capi.FlagVal.str X)] =
      { Capi.newDeployer a sb with
          kind := { Kind.newDeployer a sb with nodeImage := X } } := rfl

theorem upArgs_spec (k : Kind.Deployer) (h1 : k.logLevel = "") (h2 : k.nodeImage ≠ "")
    (h3 : k.configPath = "") (h4 : k.kubeconfigPath = "") (h5 : k.verbosity = 0) :
    k.upArgs = ["create", "cluster", "--name", k.ClusterName, "--image", k.nodeImage] := by
  delta Kind.Deployer.upArgs
  rw [h1, h3, h4, h5, if_pos h2, if_neg (by decide), if_neg (by decide), if_neg (by decide),
    if_neg (by decide)]
  rfl

theorem buildArgs_spec (k : Kind.Deployer) (h1 : k.logLevel = "") (h2 : k.nodeImage ≠ "")
    (h3 : k.buildType = "") (h4 : k.kubeRoot = "") :
    k.buildArgs = ["build", "node-image", "--image", k.nodeImage] := by
  delta Kind.Deployer.buildArgs
  rw [h1, h3, h4, if_pos h2, if_neg (by decide), if_neg (by decide), if_neg (by decide)]
  rfl

theorem buildArgs_eq_without_type (k : Kind.Deployer) (h : k.buildType = "") :
    k.buildArgs = k.buildArgsWithoutType := by
  delta Kind.Deployer.buildArgs Kind.Deployer.buildArgsWithoutType
  rw [h]
  simp

/-- C9: at the failing input `--build-type docker`, the parsed value
lands in the `nodeImage` field (the flag is bound to `&d.nodeImage` in
the source), `buildType` stays empty, and `Build`'s argument vector is
`build node-image --image docker` — it contains no `--type`,
contradicting the claim that `--type <value>` is passed to the build
node-image command. -/
theorem c9_build_type_not_passed :
    (Capi.parseFlags "_artifacts" false [("build-type", Capi.FlagVal.str "docker")]).kind.nodeImage =
      "docker" ∧
    (Capi.parseFlags "_artifacts" false [("build-type", Capi.FlagVal.str "docker")]).kind.buildType =
      "" ∧
    (Capi.parseFlags "_artifacts" false [("build-type", Capi.FlagVal.str "docker")]).kind.buildArgs =
      ["build", "node-image", "--image", "docker"] ∧
    "--type" ∉
      (Capi.parseFlags "_artifacts" false
        [("build-type", Capi.FlagVal.str "docker")]).kind.buildArgs :=
  ⟨rfl, rfl, rfl, by decide⟩

/-- C10: the flag named `build-type` is bound to the node-image field:
parsing it with a non-empty value `X` makes both the bootstrap `Up` and
`Build` argument vectors carry `--image X`; the internal `buildType`
field is bound to no flag, so no parsed flag configuration can make
`Build` emit the `--type` segment (its argument vector always equals
the `--type`-free vector). -/
theorem c10_build_type_binding (X : String) (hX : X ≠ "") (a : String) (sb : Bool) :
    (Capi.parseFlags a sb [("build-type", Capi.FlagVal.str X)]).kind.nodeImage = X ∧
    ["--image", X] <:+: (Capi.parseFlags a sb [("build-type", Capi.FlagVal.str X)]).kind.upArgs ∧
    ["--image", X] <:+:
      (Capi.parseFlags a sb [("build-type", Capi.FlagVal.str X)]).kind.buildArgs ∧
    (∀ fs, (Capi.parseFlags a sb fs).kind.buildType = "" ∧
      (Capi.parseFlags a sb fs).kind.buildArgs =
        (Capi.parseFlags a sb fs).kind.buildArgsWithoutType) := by
  refine ⟨rfl, ?_, ?_, fun fs => ⟨parseFlags_buildType a sb fs,
    buildArgs_eq_without_type _ (parseFlags_buildType a sb fs)⟩⟩
  · rw [parseFlags_one_buildType_flag, upArgs_spec _ rfl hX rfl rfl rfl]
    exact ⟨["create", "cluster", "--name", "kind-kubetest2"], [], rfl⟩
  · rw [parseFlags_one_buildType_flag, buildArgs_spec _ rfl hX rfl rfl]
    exact ⟨["build", "node-image"], [], rfl⟩

/-- C10 witness for `c10_build_type_binding` at a concrete input. -/
theorem c10_build_type_binding_witness :
    ("docker" : String) ≠ "" ∧
    (Capi.parseFlags "_artifacts" false
      [("build-type", Capi.FlagVal.str "docker")]).kind.nodeImage = "docker" ∧
    ["--image", "docker"] <:+:
      (Capi.parseFlags "_artifacts" false
        [("build-type", Capi.FlagVal.str "docker")]).kind.buildArgs :=
  ⟨by decide,
   (c10_build_type_binding "docker" (by decide) "_artifacts" false).1,
   (c10_build_type_binding "docker" (by decide) "_artifacts" false).2.2.1⟩

theorem kc_filter_startOrWait (d : Capi.deployer) (w : Capi.KubeconfigWorld) :
    (Capi.deployer.Kubeconfig d w).trace.filter isStartOrWait = [] := by
  unfold Capi.deployer.Kubeconfig
  split
  · rfl
  · split
    · rfl
    · split
      · rfl
      · split <;> rfl

theorem kc_countP_init (d : Capi.deployer) (w : Capi.KubeconfigWorld) :
    (Capi.deployer.Kubeconfig d w).trace.countP isInitRun = 0 := by
  unfold Capi.deployer.Kubeconfig
  split
  · rfl
  · split
    · rfl
    · split
      · rfl
      · split <;> rfl

theorem up_reduce (d : Capi.deployer) (w : Capi.UpWorld)
    (h1 : w.parseDurationOk = true)
    (h2 : d.useExistingCluster = true ∨ w.kindUpOk = true)
    (h3 : queryTolerated w = true) :
    (Capi.deployer.Up d w).trace =
      (if d.useExistingCluster then [] else [Capi.kindCreateEvent d]) ++
        [Event.run "kubectl" (Capi.queryArgs d) true] ++ (Capi.upAfterQuery d w).trace ∧
    (Capi.deployer.Up d w).res = (Capi.upAfterQuery d w).res := by
  unfold queryTolerated at h3
  unfold Capi.deployer.Up
  have hk : d.useExistingCluster = false → w.kindUpOk = true := by
    intro hf
    rcases h2 with h | h
    · rw [hf] at h; exact absurd h (by decide)
    · exact h
  cases hue : d.useExistingCluster <;>
    rcases hqe : w.queryErr with _ | e
  · rw [hqe] at h3
    simp [h1, hue, hk hue, Capi.kindCreateEvent]
  · rw [hqe] at h3
    cases e with
    | exitError s => simp at h3; simp [h1, hue, hk hue, Capi.kindCreateEvent, h3]
    | otherError => simp at h3
  · rw [hqe] at h3
    simp [h1, hue, Capi.kindCreateEvent]
  · rw [hqe] at h3
    cases e with
    | exitError s => simp at h3; simp [h1, hue, Capi.kindCreateEvent, h3]
    | otherError => simp at h3

theorem ai_countP_init (d : Capi.deployer) (w : Capi.UpWorld) :
    (Capi.upAfterInstall d w).trace.countP isInitRun = 0 := by
  cases h1 : w.waitCapiOk
  · simp [h1, Capi.upAfterInstall, List.countP_append, List.countP_cons, isInitRun, kc_countP_init, Capi.calicoApplyArgs, Capi.calicoWaitArgs, Capi.waitCapiArgs, Capi.configArgs, Capi.applyArgs, Capi.waitReadyArgs]
  cases h2 : w.pipeOk
  · simp [h1, h2, Capi.upAfterInstall, List.countP_append, List.countP_cons, isInitRun, kc_countP_init, Capi.calicoApplyArgs, Capi.calicoWaitArgs, Capi.waitCapiArgs, Capi.configArgs, Capi.applyArgs, Capi.waitReadyArgs]
  cases h3 : w.clusterctlStartOk
  · simp [h1, h2, h3, Capi.upAfterInstall, List.countP_append, List.countP_cons, isInitRun, kc_countP_init, Capi.calicoApplyArgs, Capi.calicoWaitArgs, Capi.waitCapiArgs, Capi.configArgs, Capi.applyArgs, Capi.waitReadyArgs]
  cases h4 : w.kubectlStartOk
  · simp [h1, h2, h3, h4, Capi.upAfterInstall, List.countP_append, List.countP_cons, isInitRun, kc_countP_init, Capi.calicoApplyArgs, Capi.calicoWaitArgs, Capi.waitCapiArgs, Capi.configArgs, Capi.applyArgs, Capi.waitReadyArgs]
  cases h5 : w.clusterctlWaitOk
  · simp [h1, h2, h3, h4, h5, Capi.upAfterInstall, List.countP_append, List.countP_cons, isInitRun, kc_countP_init, Capi.calicoApplyArgs, Capi.calicoWaitArgs, Capi.waitCapiArgs, Capi.configArgs, Capi.applyArgs, Capi.waitReadyArgs]
  cases h6 : w.kubectlWaitOk
  · simp [h1, h2, h3, h4, h5, h6, Capi.upAfterInstall, List.countP_append, List.countP_cons, isInitRun, kc_countP_init, Capi.calicoApplyArgs, Capi.calicoWaitArgs, Capi.waitCapiArgs, Capi.configArgs, Capi.applyArgs, Capi.waitReadyArgs]
  cases h7 : w.waitReadyOk
  · simp [h1, h2, h3, h4, h5, h6, h7, Capi.upAfterInstall, List.countP_append, List.countP_cons, isInitRun, kc_countP_init, Capi.calicoApplyArgs, Capi.calicoWaitArgs, Capi.waitCapiArgs, Capi.configArgs, Capi.applyArgs, Capi.waitReadyArgs]
  cases h8 : d.installCalico
  · simp [h1, h2, h3, h4, h5, h6, h7, h8, Capi.upAfterInstall, List.countP_append, List.countP_cons, isInitRun, kc_countP_init, Capi.calicoApplyArgs, Capi.calicoWaitArgs, Capi.waitCapiArgs, Capi.configArgs, Capi.applyArgs, Capi.waitReadyArgs]
  rcases h9 : (Capi.deployer.Kubeconfig d w.kubeconfigWorld).res with e | kcs
  · simp [h1, h2, h3, h4, h5, h6, h7, h8, h9, Capi.upAfterInstall, List.countP_append, List.countP_cons, isInitRun, kc_countP_init, Capi.calicoApplyArgs, Capi.calicoWaitArgs, Capi.waitCapiArgs, Capi.configArgs, Capi.applyArgs, Capi.waitReadyArgs]
  cases h10 : w.calicoApplyOk
  · simp [h1, h2, h3, h4, h5, h6, h7, h8, h9, h10, Capi.upAfterInstall, List.countP_append, List.countP_cons, isInitRun, kc_countP_init, Capi.calicoApplyArgs, Capi.calicoWaitArgs, Capi.waitCapiArgs, Capi.configArgs, Capi.applyArgs, Capi.waitReadyArgs]
  cases h11 : w.calicoWaitOk
  · simp [h1, h2, h3, h4, h5, h6, h7, h8, h9, h10, h11, Capi.upAfterInstall, List.countP_append, List.countP_cons, isInitRun, kc_countP_init, Capi.calicoApplyArgs, Capi.calicoWaitArgs, Capi.waitCapiArgs, Capi.configArgs, Capi.applyArgs, Capi.waitReadyArgs]
  · simp [h1, h2, h3, h4, h5, h6, h7, h8, h9, h10, h11, Capi.upAfterInstall, List.countP_append, List.countP_cons, isInitRun, kc_countP_init, Capi.calicoApplyArgs, Capi.calicoWaitArgs, Capi.waitCapiArgs, Capi.configArgs, Capi.applyArgs, Capi.waitReadyArgs]

theorem ai_count_init (d' d : Capi.deployer) (w : Capi.UpWorld) :
    (Capi.upAfterInstall d w).trace.count (Capi.initEvent d') = 0 := by
  rw [List.count_eq_zero]
  intro hmem
  have h0 := ai_countP_init d w
  rw [List.countP_eq_zero] at h0
  exact absurd (h0 _ hmem) (by simp [isInitRun, Capi.initEvent, Capi.initArgs])

theorem aq_count_init (d : Capi.deployer) (w : Capi.UpWorld) :
    (Capi.upAfterQuery d w).trace.count (Capi.initEvent d) =
      if w.queryOut = "" then 1 else 0 := by
  unfold Capi.upAfterQuery
  by_cases hq : w.queryOut = ""
  · cases hi : w.initOk
    · simp [hq, hi, Capi.initEvent]
    · simp [hq, hi, Capi.initEvent, List.count_cons]
      exact ai_count_init d d w
  · simp [hq]
    exact ai_count_init d d w

theorem aq_res_eq (d : Capi.deployer) (w : Capi.UpWorld)
    (h4 : w.queryOut = "" → w.initOk = true) :
    (Capi.upAfterQuery d w).res = (Capi.upAfterInstall d w).res := by
  unfold Capi.upAfterQuery
  by_cases hq : w.queryOut = ""
  · simp [hq, h4 hq]
  · simp [hq]

theorem aq_trace_eq (d : Capi.deployer) (w : Capi.UpWorld)
    (h4 : w.queryOut = "" → w.initOk = true) :
    (Capi.upAfterQuery d w).trace =
      (if w.queryOut = "" then [Capi.initEvent d] else []) ++
        (Capi.upAfterInstall d w).trace := by
  unfold Capi.upAfterQuery
  by_cases hq : w.queryOut = ""
  · simp [hq, h4 hq, Capi.initEvent]
  · simp [hq]

/-- C3: when `Up` reaches the provider query and the query subprocess
succeeds, the `clusterctl init --infrastructure <provider>` invocation
occurs exactly once if the query produced no output, and does not occur
at all if the query produced any output. -/
theorem c3_init_idempotent (d : Capi.deployer) (w : Capi.UpWorld)
    (h1 : w.parseDurationOk = true)
    (h2 : d.useExistingCluster = true ∨ w.kindUpOk = true)
    (hq : w.queryErr = none) :
    (Capi.deployer.Up d w).trace.count (Capi.initEvent d) =
      if w.queryOut = "" then 1 else 0 := by
  have h3 : queryTolerated w = true := by unfold queryTolerated; rw [hq]
  obtain ⟨ht, -⟩ := up_reduce d w h1 h2 h3
  rw [ht, List.count_append, List.count_append, aq_count_init]
  have hpre : (if d.useExistingCluster then [] else [Capi.kindCreateEvent d]).count
      (Capi.initEvent d) = 0 := by
    cases d.useExistingCluster <;> simp [Capi.kindCreateEvent, Capi.initEvent]
  have hq0 : ([Event.run "kubectl" (Capi.queryArgs d) true]).count (Capi.initEvent d) = 0 := by
    simp [Capi.initEvent]
  rw [hpre, hq0]
  simp

/-- C3 witness for `c3_init_idempotent` at a concrete input. -/
theorem c3_init_idempotent_witness :
    (allOkWorld.parseDurationOk = true ∧
      ((Capi.newDeployer "_artifacts" false).useExistingCluster = true ∨
        allOkWorld.kindUpOk = true) ∧
      allOkWorld.queryErr = none) ∧
    (Capi.deployer.Up (Capi.newDeployer "_artifacts" false) allOkWorld).trace.count
      (Capi.initEvent (Capi.newDeployer "_artifacts" false)) =
      (if allOkWorld.queryOut = "" then 1 else 0) :=
  ⟨⟨rfl, Or.inr rfl, rfl⟩,
   c3_init_idempotent (Capi.newDeployer "_artifacts" false) allOkWorld rfl (Or.inr rfl) rfl⟩

theorem ai_filter_startOrWait (d : Capi.deployer) (w : Capi.UpWorld)
    (ha : w.waitCapiOk = true) (hb : w.pipeOk = true)
    (hc : w.clusterctlStartOk = true) (hd : w.kubectlStartOk = true) :
    (Capi.upAfterInstall d w).trace.filter isStartOrWait =
      [Event.start "clusterctl" (Capi.configArgs d) true,
       Event.start "kubectl" Capi.applyArgs true,
       Event.waitCmd "clusterctl" (Capi.configArgs d) true] ++
      (if w.clusterctlWaitOk then [Event.waitCmd "kubectl" Capi.applyArgs true] else []) := by
  cases h5 : w.clusterctlWaitOk
  · simp [Capi.upAfterInstall, List.filter_append, isStartOrWait, ha, hb, hc, hd, h5]
  cases h6 : w.kubectlWaitOk
  · simp [Capi.upAfterInstall, List.filter_append, isStartOrWait, ha, hb, hc, hd, h5, h6]
  cases h7 : w.waitReadyOk
  · simp [Capi.upAfterInstall, List.filter_append, isStartOrWait, ha, hb, hc, hd, h5, h6, h7]
  cases h8 : d.installCalico
  · simp [Capi.upAfterInstall, List.filter_append, isStartOrWait, ha, hb, hc, hd, h5, h6, h7,
      h8]
  rcases h9 : (Capi.deployer.Kubeconfig d w.kubeconfigWorld).res with e | kcs
  · simp [Capi.upAfterInstall, List.filter_append, isStartOrWait, ha, hb, hc, hd, h5, h6, h7,
      h8, h9, kc_filter_startOrWait]
  cases h10 : w.calicoApplyOk
  · simp [Capi.upAfterInstall, List.filter_append, isStartOrWait, ha, hb, hc, hd, h5, h6, h7,
      h8, h9, h10, kc_filter_startOrWait]
  cases h11 : w.calicoWaitOk
  · simp [Capi.upAfterInstall, List.filter_append, isStartOrWait, ha, hb, hc, hd, h5, h6, h7,
      h8, h9, h10, h11, kc_filter_startOrWait]
  · simp [Capi.upAfterInstall, List.filter_append, isStartOrWait, ha, hb, hc, hd, h5, h6, h7,
      h8, h9, h10, h11, kc_filter_startOrWait]

theorem ai_res_wait_fail (d : Capi.deployer) (w : Capi.UpWorld)
    (ha : w.waitCapiOk = true) (hb : w.pipeOk = true)
    (hc : w.clusterctlStartOk = true) (hd : w.kubectlStartOk = true)
    (hf : w.clusterctlWaitOk = false ∨ w.kubectlWaitOk = false) :
    (Capi.upAfterInstall d w).res = .error .clusterctlWaitErr ∨
    (Capi.upAfterInstall d w).res = .error .kubectlWaitErr := by
  cases h5 : w.clusterctlWaitOk
  · left
    simp [Capi.upAfterInstall, ha, hb, hc, hd, h5]
  · rcases hf with h | h
    · rw [h5] at h
      exact absurd h (by decide)
    · right
      simp [Capi.upAfterInstall, ha, hb, hc, hd, h5, h]

/-- C2: when `Up` reaches the manifest-streaming step (and both
`Start()` calls succeed), the only `Start`/`Wait` interactions in the
whole trace are: producer started, consumer started (both before any
wait), producer waited on, and — only if the producer's wait succeeded —
consumer waited on; and if either piped process exits non-zero, `Up`
returns an error. -/
theorem c2_streaming_pipe (d : Capi.deployer) (w : Capi.UpWorld)
    (h1 : w.parseDurationOk = true)
    (h2 : d.useExistingCluster = true ∨ w.kindUpOk = true)
    (h3 : queryTolerated w = true)
    (h4 : w.queryOut = "" → w.initOk = true)
    (ha : w.waitCapiOk = true) (hb : w.pipeOk = true)
    (hc : w.clusterctlStartOk = true) (hd : w.kubectlStartOk = true) :
    (Capi.deployer.Up d w).trace.filter isStartOrWait =
      [Event.start "clusterctl" (Capi.configArgs d) true,
       Event.start "kubectl" Capi.applyArgs true,
       Event.waitCmd "clusterctl" (Capi.configArgs d) true] ++
      (if w.clusterctlWaitOk then [Event.waitCmd "kubectl" Capi.applyArgs true] else []) ∧
    (w.clusterctlWaitOk = false ∨ w.kubectlWaitOk = false →
      ∃ e, (Capi.deployer.Up d w).res = .error e) := by
  obtain ⟨ht, hr⟩ := up_reduce d w h1 h2 h3
  constructor
  · rw [ht, aq_trace_eq d w h4]
    rw [List.filter_append, List.filter_append, List.filter_append,
      ai_filter_startOrWait d w ha hb hc hd]
    have p1 : (if d.useExistingCluster then [] else [Capi.kindCreateEvent d]).filter
        isStartOrWait = [] := by
      cases d.useExistingCluster <;> simp [Capi.kindCreateEvent, isStartOrWait]
    have p2 : ([Event.run "kubectl" (Capi.queryArgs d) true]).filter isStartOrWait = [] := by
      simp [isStartOrWait]
    have p3 : (if w.queryOut = "" then [Capi.initEvent d] else []).filter isStartOrWait = [] := by
      by_cases hqo : w.queryOut = "" <;> simp [hqo, Capi.initEvent, isStartOrWait]
    rw [p1, p2, p3]
    simp
  · intro hf
    rw [hr, aq_res_eq d w h4]
    rcases ai_res_wait_fail d w ha hb hc hd hf with h | h
    · exact ⟨_, h⟩
    · exact ⟨_, h⟩

/-- C2 witness for `c2_streaming_pipe` at a concrete input. -/
theorem c2_streaming_pipe_witness :
    ((allOkWorld.parseDurationOk = true ∧
      ((Capi.newDeployer "_artifacts" false).useExistingCluster = true ∨
        allOkWorld.kindUpOk = true) ∧
      queryTolerated allOkWorld = true ∧
      (allOkWorld.queryOut = "" → allOkWorld.initOk = true) ∧
      allOkWorld.waitCapiOk = true ∧ allOkWorld.pipeOk = true ∧
      allOkWorld.clusterctlStartOk = true ∧ allOkWorld.kubectlStartOk = true) ∧
    (Capi.deployer.Up (Capi.newDeployer "_artifacts" false) allOkWorld).trace.filter
        isStartOrWait =
      [Event.start "clusterctl" (Capi.configArgs (Capi.newDeployer "_artifacts" false)) true,
       Event.start "kubectl" Capi.applyArgs true,
       Event.waitCmd "clusterctl" (Capi.configArgs (Capi.newDeployer "_artifacts" false)) true] ++
      (if allOkWorld.clusterctlWaitOk then [Event.waitCmd "kubectl" Capi.applyArgs true]
       else [])) :=
  ⟨⟨rfl, Or.inr rfl, rfl, fun _ => rfl, rfl, rfl, rfl, rfl⟩,
   (c2_streaming_pipe (Capi.newDeployer "_artifacts" false) allOkWorld rfl (Or.inr rfl) rfl
      (fun _ => rfl) rfl rfl rfl rfl).1⟩

theorem kc_countP_ctxFree (d : Capi.deployer) (w : Capi.KubeconfigWorld) :
    (Capi.deployer.Kubeconfig d w).trace.countP (ctxFreeUnexpected d) = 0 := by
  unfold Capi.deployer.Kubeconfig
  split
  · rfl
  · split
    · rfl
    · split
      · simp [ctxFreeUnexpected, Event.isProc, Event.withCtxFlag, Capi.getKubeconfigEvent,
          Capi.getKubeconfigArgs]
      · split <;>
        · simp [ctxFreeUnexpected, Event.isProc, Event.withCtxFlag, Capi.getKubeconfigEvent,
            Capi.getKubeconfigArgs]

theorem ai_countP_ctxFree (d : Capi.deployer) (w : Capi.UpWorld) :
    (Capi.upAfterInstall d w).trace.countP (ctxFreeUnexpected d) = 0 := by
  cases h1 : w.waitCapiOk
  · simp [h1, Capi.upAfterInstall, List.countP_append, List.countP_cons, ctxFreeUnexpected, Event.isProc, Event.withCtxFlag, kc_countP_ctxFree]
  cases h2 : w.pipeOk
  · simp [h1, h2, Capi.upAfterInstall, List.countP_append, List.countP_cons, ctxFreeUnexpected, Event.isProc, Event.withCtxFlag, kc_countP_ctxFree]
  cases h3 : w.clusterctlStartOk
  · simp [h1, h2, h3, Capi.upAfterInstall, List.countP_append, List.countP_cons, ctxFreeUnexpected, Event.isProc, Event.withCtxFlag, kc_countP_ctxFree]
  cases h4 : w.kubectlStartOk
  · simp [h1, h2, h3, h4, Capi.upAfterInstall, List.countP_append, List.countP_cons, ctxFreeUnexpected, Event.isProc, Event.withCtxFlag, kc_countP_ctxFree]
  cases h5 : w.clusterctlWaitOk
  · simp [h1, h2, h3, h4, h5, Capi.upAfterInstall, List.countP_append, List.countP_cons, ctxFreeUnexpected, Event.isProc, Event.withCtxFlag, kc_countP_ctxFree]
  cases h6 : w.kubectlWaitOk
  · simp [h1, h2, h3, h4, h5, h6, Capi.upAfterInstall, List.countP_append, List.countP_cons, ctxFreeUnexpected, Event.isProc, Event.withCtxFlag, kc_countP_ctxFree]
  cases h7 : w.waitReadyOk
  · simp [h1, h2, h3, h4, h5, h6, h7, Capi.upAfterInstall, List.countP_append, List.countP_cons, ctxFreeUnexpected, Event.isProc, Event.withCtxFlag, kc_countP_ctxFree]
  cases h8 : d.installCalico
  · simp [h1, h2, h3, h4, h5, h6, h7, h8, Capi.upAfterInstall, List.countP_append, List.countP_cons, ctxFreeUnexpected, Event.isProc, Event.withCtxFlag, kc_countP_ctxFree]
  rcases h9 : (Capi.deployer.Kubeconfig d w.kubeconfigWorld).res with e | kcs
  · simp [h1, h2, h3, h4, h5, h6, h7, h8, h9, Capi.upAfterInstall, List.countP_append, List.countP_cons, ctxFreeUnexpected, Event.isProc, Event.withCtxFlag, kc_countP_ctxFree]
  cases h10 : w.calicoApplyOk
  · simp [h1, h2, h3, h4, h5, h6, h7, h8, h9, h10, Capi.upAfterInstall, List.countP_append, List.countP_cons, ctxFreeUnexpected, Event.isProc, Event.withCtxFlag, kc_countP_ctxFree]
  cases h11 : w.calicoWaitOk
  · simp [h1, h2, h3, h4, h5, h6, h7, h8, h9, h10, h11, Capi.upAfterInstall, List.countP_append, List.countP_cons, ctxFreeUnexpected, Event.isProc, Event.withCtxFlag, kc_countP_ctxFree]
  · simp [h1, h2, h3, h4, h5, h6, h7, h8, h9, h10, h11, Capi.upAfterInstall, List.countP_append, List.countP_cons, ctxFreeUnexpected, Event.isProc, Event.withCtxFlag, kc_countP_ctxFree]

theorem aq_countP_ctxFree (d : Capi.deployer) (w : Capi.UpWorld) :
    (Capi.upAfterQuery d w).trace.countP (ctxFreeUnexpected d) = 0 := by
  unfold Capi.upAfterQuery
  by_cases hq : w.queryOut = ""
  · cases hi : w.initOk <;>
      simp [hq, hi, List.countP_append, List.countP_cons, ctxFreeUnexpected, Event.isProc,
        Event.withCtxFlag, ai_countP_ctxFree]
  · simp [hq, ai_countP_ctxFree]

theorem up_countP_ctxFree (d : Capi.deployer) (w : Capi.UpWorld) :
    (Capi.deployer.Up d w).trace.countP (ctxFreeUnexpected d) = 0 := by
  unfold Capi.deployer.Up
  cases h1 : w.parseDurationOk
  · simp
  cases hue : d.useExistingCluster <;> cases hk : w.kindUpOk <;>
    rcases hqe : w.queryErr with _ | e
  · simp [h1, hue, hk, List.countP_cons, ctxFreeUnexpected, Event.isProc, Event.withCtxFlag,
      Capi.kindCreateEvent]
  · cases e <;>
      simp [h1, hue, hk, List.countP_cons, ctxFreeUnexpected, Event.isProc, Event.withCtxFlag,
        Capi.kindCreateEvent]
  · simp [h1, hue, hk, List.countP_append, List.countP_cons, ctxFreeUnexpected, Event.isProc,
      Event.withCtxFlag, Capi.kindCreateEvent, aq_countP_ctxFree]
  · cases e with
    | exitError s =>
      cases hbc : bytesContains s Capi.noResourceTypeMsg <;>
        simp [h1, hue, hk, hbc, List.countP_append, List.countP_cons, ctxFreeUnexpected,
          Event.isProc, Event.withCtxFlag, Capi.kindCreateEvent, aq_countP_ctxFree]
    | otherError =>
      simp [h1, hue, hk, List.countP_append, List.countP_cons, ctxFreeUnexpected,
        Event.isProc, Event.withCtxFlag, Capi.kindCreateEvent]
  · simp [h1, hue, hk, List.countP_append, List.countP_cons, ctxFreeUnexpected, Event.isProc,
      Event.withCtxFlag, aq_countP_ctxFree]
  · cases e with
    | exitError s =>
      cases hbc : bytesContains s Capi.noResourceTypeMsg <;>
        simp [h1, hue, hk, hbc, List.countP_append, List.countP_cons, ctxFreeUnexpected,
          Event.isProc, Event.withCtxFlag, aq_countP_ctxFree]
    | otherError =>
      simp [h1, hue, hk, List.countP_append, List.countP_cons, ctxFreeUnexpected,
        Event.isProc, Event.withCtxFlag]
  · simp [h1, hue, hk, List.countP_append, List.countP_cons, ctxFreeUnexpected, Event.isProc,
      Event.withCtxFlag, aq_countP_ctxFree]
  · cases e with
    | exitError s =>
      cases hbc : bytesContains s Capi.noResourceTypeMsg <;>
        simp [h1, hue, hk, hbc, List.countP_append, List.countP_cons, ctxFreeUnexpected,
          Event.isProc, Event.withCtxFlag, aq_countP_ctxFree]
    | otherError =>
      simp [h1, hue, hk, List.countP_append, List.countP_cons, ctxFreeUnexpected,
        Event.isProc, Event.withCtxFlag]

/-- C5, counterexample: at the default configuration with every
interaction succeeding, the bootstrap-create subprocess invocation
appears in `Up`'s trace without the deadline context — refuting "the
deadline is attached to every subprocess invocation ... including the
bootstrap-create step". -/
theorem c5_deadline_counterexample :
    Capi.kindCreateEvent (Capi.newDeployer "_artifacts" false) ∈
      (Capi.deployer.Up (Capi.newDeployer "_artifacts" false) allOkWorld).trace ∧
    (Capi.kindCreateEvent (Capi.newDeployer "_artifacts" false)).isProc = true ∧
    (Capi.kindCreateEvent (Capi.newDeployer "_artifacts" false)).withCtxFlag = false := by
  refine ⟨?_, rfl, rfl⟩
  decide

/-- C5, amended: every subprocess invocation or wait of an `Up` call
that does not carry the shared deadline context is either the
bootstrap-create invocation delegated to the kind deployer or the
`clusterctl get kubeconfig` invocation performed inside `Kubeconfig`;
every other invocation and wait carries the deadline. -/
theorem c5_deadline_amended (d : Capi.deployer) (w : Capi.UpWorld) (e : Event)
    (he : e ∈ (Capi.deployer.Up d w).trace) (hp : e.isProc = true)
    (hcx : e.withCtxFlag = false) :
    e = Capi.kindCreateEvent d ∨ e = Capi.getKubeconfigEvent d := by
  have h0 := up_countP_ctxFree d w
  rw [List.countP_eq_zero] at h0
  by_contra hne
  rcases not_or.mp hne with ⟨hn1, hn2⟩
  apply h0 e he
  have b1 : (e == Capi.kindCreateEvent d) = false := beq_eq_false_iff_ne.mpr hn1
  have b2 : (e == Capi.getKubeconfigEvent d) = false := beq_eq_false_iff_ne.mpr hn2
  simp [ctxFreeUnexpected, hp, hcx, b1, b2]

/-- C5 witness for `c5_deadline_amended` at a concrete input. -/
theorem c5_deadline_amended_witness :
    (Capi.kindCreateEvent (Capi.newDeployer "_artifacts" false) ∈
        (Capi.deployer.Up (Capi.newDeployer "_artifacts" false) allOkWorld).trace ∧
      (Capi.kindCreateEvent (Capi.newDeployer "_artifacts" false)).isProc = true ∧
      (Capi.kindCreateEvent (Capi.newDeployer "_artifacts" false)).withCtxFlag = false) ∧
    (Capi.kindCreateEvent (Capi.newDeployer "_artifacts" false) =
        Capi.kindCreateEvent (Capi.newDeployer "_artifacts" false) ∨
      Capi.kindCreateEvent (Capi.newDeployer "_artifacts" false) =
        Capi.getKubeconfigEvent (Capi.newDeployer "_artifacts" false)) :=
  ⟨⟨by decide, rfl, rfl⟩,
   c5_deadline_amended (Capi.newDeployer "_artifacts" false) allOkWorld
     (Capi.kindCreateEvent (Capi.newDeployer "_artifacts" false)) (by decide) rfl rfl⟩

theorem aq_queryErr_irrel (d : Capi.deployer) (w : Capi.UpWorld) (x : Option ExecErr) :
    Capi.upAfterQuery d { w with queryErr := x } = Capi.upAfterQuery d w := rfl

/-- C4: when `Up` reaches the provider query, an `ExitError` whose
captured stderr contains the known "resource type not found" substring
leaves `Up` behaving exactly as if the query had succeeded with the
same output (treated as "not installed"); an `ExitError` without that
substring, or any non-exit error, makes `Up` return immediately with
the corresponding error, its trace ending at the query invocation. -/
theorem c4_query_error_tolerance (d : Capi.deployer) (w : Capi.UpWorld) (s : String)
    (h1 : w.parseDurationOk = true)
    (h2 : d.useExistingCluster = true ∨ w.kindUpOk = true) :
    (bytesContains s Capi.noResourceTypeMsg = true →
      Capi.deployer.Up d { w with queryErr := some (.exitError s) } =
        Capi.deployer.Up d { w with queryErr := none }) ∧
    (bytesContains s Capi.noResourceTypeMsg = false →
      Capi.deployer.Up d { w with queryErr := some (.exitError s) } =
        ⟨.error (.queryExitErr w.queryOut s), d,
         (if d.useExistingCluster then [] else [Capi.kindCreateEvent d]) ++
           [Event.run "kubectl" (Capi.queryArgs d) true]⟩) ∧
    Capi.deployer.Up d { w with queryErr := some .otherError } =
      ⟨.error .queryOtherErr, d,
       (if d.useExistingCluster then [] else [Capi.kindCreateEvent d]) ++
         [Event.run "kubectl" (Capi.queryArgs d) true]⟩ := by
  have hk : d.useExistingCluster = false → w.kindUpOk = true := by
    intro hf
    rcases h2 with h | h
    · rw [hf] at h; exact absurd h (by decide)
    · exact h
  refine ⟨?_, ?_, ?_⟩
  · intro hbc
    unfold Capi.deployer.Up
    cases hue : d.useExistingCluster <;>
      simp [h1, hue, hk, hbc, Capi.kindCreateEvent, aq_queryErr_irrel] <;>
      exact ⟨rfl, rfl, rfl⟩
  · intro hbc
    unfold Capi.deployer.Up
    cases hue : d.useExistingCluster <;>
      simp [h1, hue, hk, hbc, Capi.kindCreateEvent]
  · unfold Capi.deployer.Up
    cases hue : d.useExistingCluster <;>
      simp [h1, hue, hk, Capi.kindCreateEvent]

/-- C4 witness for `c4_query_error_tolerance` at a concrete input: the
tolerated substring case. -/
theorem c4_query_error_tolerance_witness :
    (allOkWorld.parseDurationOk = true ∧
      ((Capi.newDeployer "_artifacts" false).useExistingCluster = true ∨
        allOkWorld.kindUpOk = true) ∧
      bytesContains "error: the server doesn't have a resource type \"providers\""
        Capi.noResourceTypeMsg = true) ∧
    Capi.deployer.Up (Capi.newDeployer "_artifacts" false)
        { allOkWorld with
            queryErr := some (.exitError
              "error: the server doesn't have a resource type \"providers\"") } =
      Capi.deployer.Up (Capi.newDeployer "_artifacts" false)
        { allOkWorld with queryErr := none } :=
  ⟨⟨rfl, Or.inr rfl, by decide⟩,
   (c4_query_error_tolerance (Capi.newDeployer "_artifacts" false) allOkWorld
      "error: the server doesn't have a resource type \"providers\"" rfl
      (Or.inr rfl)).1 (by decide)⟩
